import Mathlib

/-!
Shallow embedding of the browsertime wait/interaction command layer:
the `Wait` class (src/lib/chrome/settings/traceCategories.js, second
document in the file) and the `SingleClick` class (src/unnamed/part_000).

The browser driver and the Completion Predicate are external
collaborators; they are modelled as an oracle record `Env` whose fields
answer exactly the questions the code asks of them.  Each operation is
embedded as a pure function returning the settled outcome
(`Except JsError Unit`) together with the ordered trace of observable
effects (driver calls and log emissions).
-/

/-- Discriminant of a locator: `By.id`, `By.xpath`, `By.css`. -/
inductive LocKind
  | id
  | xpath
  | selector
deriving DecidableEq, Repr

/-- A locator value: kind plus the string the caller supplied. -/
structure Locator where
  kind : LocKind
  value : String
deriving DecidableEq, Repr

/-- A JavaScript error value; only its message is observable here. -/
structure JsError where
  msg : String
deriving DecidableEq, Repr

deriving instance DecidableEq for Except

/-- Observable effects of one call, in order of occurrence. -/
inductive Event
  | driverWait (loc : Locator) (timeMs : Int)
  | driverWaitCondition (script : String) (timeMs : Int)
  | delay (ms : Int)
  | findElement (loc : Locator)
  | clickPerform
  | extraWait (check : String)
  | logError (msg : String)
  | logVerbose
deriving DecidableEq, Repr

/-- Outcome of `driver.wait(() => driver.executeScript(script), time)`:
the script turned truthy in time, stayed falsy until the timeout, or the
evaluation itself raised. -/
inductive CondResult
  | truthy
  | stuckFalsy
  | evalRaised (raw : JsError)
deriving DecidableEq, Repr

/-- Oracle for the external collaborators (driver and Completion
Predicate).  `locatedWithin loc t` answers whether
`driver.wait(until.elementLocated(loc), t)` resolves; `condResult` the
condition-wait outcome; `findElementOk` whether `findElement(loc)`
succeeds; `clickOk` whether `actions.click(...).perform()` succeeds;
`extraWait check` the settled outcome of `browser.extraWait(check)`. -/
structure Env where
  locatedWithin : Locator → Int → Bool
  condResult : String → Int → CondResult
  findElementOk : Locator → Bool
  clickOk : Bool
  extraWait : String → Except JsError Unit

/-- JS `maxTime || 6000`: an absent argument and the number `0` are
falsy and yield the default; every other integer is truthy and is kept
(negative numbers included). -/
def jsOrDefault (maxTime : Option Int) (d : Int) : Int :=
  match maxTime with
  | none => d
  | some t => if t = 0 then d else t

/-- Thrown/logged message of `Wait.byId` on failure. -/
def idMsg (id : String) (time : Int) : String :=
  s!"Element by id {id} was not located in {time} ms"

/-- Thrown/logged message of `Wait.byXpath` on failure. -/
def xpathMsg (xpath : String) (time : Int) : String :=
  s!"Element by xpath {xpath} was not located in {time} ms"

/-- Thrown/logged message of `Wait.bySelector` on failure. -/
def selectorMsg (selector : String) (time : Int) : String :=
  s!"Element by selector {selector} was not located in {time} ms"

/-- Thrown message of `Wait.byCondition` on failure. -/
def condMsg (jsExpression : String) (time : Int) : String :=
  s!"Condition {jsExpression} was not met in {time} ms"

/-- `Wait.byId(id, maxTime)`: `time = maxTime || 6000`; await
`driver.wait(until.elementLocated(By.id(id)), time)`; on failure log an
error-level summary and a verbose raw cause, then throw a fresh error. -/
def Wait.byId (env : Env) (id : String) (maxTime : Option Int) :
    Except JsError Unit × List Event :=
  let time := jsOrDefault maxTime 6000
  let loc : Locator := ⟨LocKind.id, id⟩
  if env.locatedWithin loc time then
    (Except.ok (), [Event.driverWait loc time])
  else
    (Except.error ⟨idMsg id time⟩,
     [Event.driverWait loc time, Event.logError (idMsg id time), Event.logVerbose])

/-- `Wait.byXpath(xpath, maxTime)`: identical shape with `By.xpath`. -/
def Wait.byXpath (env : Env) (xpath : String) (maxTime : Option Int) :
    Except JsError Unit × List Event :=
  let time := jsOrDefault maxTime 6000
  let loc : Locator := ⟨LocKind.xpath, xpath⟩
  if env.locatedWithin loc time then
    (Except.ok (), [Event.driverWait loc time])
  else
    (Except.error ⟨xpathMsg xpath time⟩,
     [Event.driverWait loc time, Event.logError (xpathMsg xpath time), Event.logVerbose])

/-- `Wait.bySelector(selector, maxTime)`: identical shape with `By.css`. -/
def Wait.bySelector (env : Env) (selector : String) (maxTime : Option Int) :
    Except JsError Unit × List Event :=
  let time := jsOrDefault maxTime 6000
  let loc : Locator := ⟨LocKind.selector, selector⟩
  if env.locatedWithin loc time then
    (Except.ok (), [Event.driverWait loc time])
  else
    (Except.error ⟨selectorMsg selector time⟩,
     [Event.driverWait loc time, Event.logError (selectorMsg selector time), Event.logVerbose])

/-- `Wait.byTime(ms)`: `return delay(ms)`; always resolves, `ms` is
passed to the scheduling primitive unvalidated. -/
def Wait.byTime (ms : Int) : Except JsError Unit × List Event :=
  (Except.ok (), [Event.delay ms])

/-- `Wait.byPageToComplete()`:
`return this.browser.extraWait(this.pageCompleteCheck)`; the outcome is
whatever `extraWait` settles to, with no logging and no own timeout. -/
def Wait.byPageToComplete (env : Env) (pageCompleteCheck : String) :
    Except JsError Unit × List Event :=
  (env.extraWait pageCompleteCheck, [Event.extraWait pageCompleteCheck])

/-- `Wait.byCondition(jsExpression, maxTime)`: `time = maxTime || 6000`,
`script = 'return ' + jsExpression`; await
`driver.wait(() => driver.executeScript(script), time)`.  Both a
persistently falsy script and a script whose evaluation raises land in
the same catch clause: log `Condition was not met` plus the verbose raw
cause, and throw the same fresh error. -/
def Wait.byCondition (env : Env) (jsExpression : String) (maxTime : Option Int) :
    Except JsError Unit × List Event :=
  let time := jsOrDefault maxTime 6000
  let script := "return " ++ jsExpression
  match env.condResult script time with
  | CondResult.truthy =>
      (Except.ok (), [Event.driverWaitCondition script time])
  | CondResult.stuckFalsy =>
      (Except.error ⟨condMsg jsExpression time⟩,
       [Event.driverWaitCondition script time,
        Event.logError "Condition was not met", Event.logVerbose])
  | CondResult.evalRaised _ =>
      (Except.error ⟨condMsg jsExpression time⟩,
       [Event.driverWaitCondition script time,
        Event.logError "Condition was not met", Event.logVerbose])

/-- A JavaScript value as far as the options bag cares:
`options.wait === true` holds exactly for the boolean `true`. -/
inductive JsVal
  | bool (b : Bool)
  | num (n : Int)
  | str (s : String)
  | nullV
  | undef
deriving DecidableEq, Repr

/-- A JS options object: the value at key `wait` when that key is
present, plus the remaining (uninterpreted) keys. -/
structure OptionsBag where
  wait : Option JsVal
  rest : List (String × JsVal)
deriving DecidableEq, Repr

/-- The guard `options && 'wait' in options && options.wait === true`. -/
def waitRequested (options : Option OptionsBag) : Bool :=
  match options with
  | none => false
  | some o =>
    match o.wait with
    | some (JsVal.bool true) => true
    | _ => false

/-- Thrown/logged message of `SingleClick.byXpath` on failure. -/
def clickXpathMsg (xpath : String) : String :=
  "Could not single click on element with xpath " ++ xpath

/-- Thrown/logged message of `SingleClick.bySelector` on failure. -/
def clickSelectorMsg (selector : String) : String :=
  "Could not single click on element with selector " ++ selector

/-- Thrown/logged message of `SingleClick.atCursor` on failure. -/
def clickCursorMsg : String :=
  "Could not perform single click"

/-- `SingleClick.byXpath(xpath, options)`: find the element, click it;
if the options guard holds, `return this.browser.extraWait(...)` — that
promise is returned without `await` inside the `try`, so its rejection
bypasses the catch clause and propagates raw.  A failure of the find or
the click is caught, logged (error summary + verbose cause), and
re-thrown as a fresh error. -/
def SingleClick.byXpath (env : Env) (pageCompleteCheck : String) (xpath : String)
    (options : Option OptionsBag) : Except JsError Unit × List Event :=
  let loc : Locator := ⟨LocKind.xpath, xpath⟩
  if env.findElementOk loc then
    if env.clickOk then
      if waitRequested options then
        (env.extraWait pageCompleteCheck,
         [Event.findElement loc, Event.clickPerform, Event.extraWait pageCompleteCheck])
      else
        (Except.ok (), [Event.findElement loc, Event.clickPerform])
    else
      (Except.error ⟨clickXpathMsg xpath⟩,
       [Event.findElement loc, Event.clickPerform,
        Event.logError (clickXpathMsg xpath), Event.logVerbose])
  else
    (Except.error ⟨clickXpathMsg xpath⟩,
     [Event.findElement loc, Event.logError (clickXpathMsg xpath), Event.logVerbose])

/-- `SingleClick.bySelector(selector, options)`: identical shape with
`By.css`. -/
def SingleClick.bySelector (env : Env) (pageCompleteCheck : String) (selector : String)
    (options : Option OptionsBag) : Except JsError Unit × List Event :=
  let loc : Locator := ⟨LocKind.selector, selector⟩
  if env.findElementOk loc then
    if env.clickOk then
      if waitRequested options then
        (env.extraWait pageCompleteCheck,
         [Event.findElement loc, Event.clickPerform, Event.extraWait pageCompleteCheck])
      else
        (Except.ok (), [Event.findElement loc, Event.clickPerform])
    else
      (Except.error ⟨clickSelectorMsg selector⟩,
       [Event.findElement loc, Event.clickPerform,
        Event.logError (clickSelectorMsg selector), Event.logVerbose])
  else
    (Except.error ⟨clickSelectorMsg selector⟩,
     [Event.findElement loc, Event.logError (clickSelectorMsg selector), Event.logVerbose])

/-- `SingleClick.atCursor(options)`: click at the current pointer
position (no element lookup), same options guard and same
failure-translation shape. -/
def SingleClick.atCursor (env : Env) (pageCompleteCheck : String)
    (options : Option OptionsBag) : Except JsError Unit × List Event :=
  if env.clickOk then
    if waitRequested options then
      (env.extraWait pageCompleteCheck,
       [Event.clickPerform, Event.extraWait pageCompleteCheck])
    else
      (Except.ok (), [Event.clickPerform])
  else
    (Except.error ⟨clickCursorMsg⟩,
     [Event.clickPerform, Event.logError clickCursorMsg, Event.logVerbose])

/-- Number of error-severity log records in a trace. -/
def countErrorLogs : List Event → Nat
  | [] => 0
  | Event.logError _ :: es => countErrorLogs es + 1
  | _ :: es => countErrorLogs es

/-- Number of verbose-severity log records in a trace. -/
def countVerboseLogs : List Event → Nat
  | [] => 0
  | Event.logVerbose :: es => countVerboseLogs es + 1
  | _ :: es => countVerboseLogs es

/-- Whether a trace contains a settle-wait (`extraWait`) invocation. -/
def invokesSettleWait : List Event → Bool
  | [] => false
  | Event.extraWait _ :: _ => true
  | _ :: es => invokesSettleWait es

/-- Environment where nothing succeeds: no element is ever located, the
condition stays falsy, no element is found, the click dispatch raises,
and `extraWait` rejects with a raw error. -/
def envAllFail : Env where
  locatedWithin := fun _ _ => false
  condResult := fun _ _ => CondResult.stuckFalsy
  findElementOk := fun _ => false
  clickOk := false
  extraWait := fun _ => Except.error ⟨"raw failure"⟩

/-- Environment where everything succeeds. -/
def envAllOk : Env where
  locatedWithin := fun _ _ => true
  condResult := fun _ _ => CondResult.truthy
  findElementOk := fun _ => true
  clickOk := true
  extraWait := fun _ => Except.ok ()

/-- Like `envAllOk` but evaluating the condition script raises. -/
def envCondRaises : Env where
  locatedWithin := fun _ _ => true
  condResult := fun _ _ => CondResult.evalRaised ⟨"boom"⟩
  findElementOk := fun _ => true
  clickOk := true
  extraWait := fun _ => Except.ok ()

/-- Like `envAllOk` but the Completion Predicate (`extraWait`) rejects. -/
def envSettleFails : Env where
  locatedWithin := fun _ _ => true
  condResult := fun _ _ => CondResult.truthy
  findElementOk := fun _ => true
  clickOk := true
  extraWait := fun _ => Except.error ⟨"settle rejected"⟩

/-- Claim C1, counterexample: `byId("submit", 0)` with the element never
locatable rejects with a recorded timeout of 6000, not the supplied 0 —
`maxTime || 6000` treats an explicit `0` as "use the default". -/
theorem wait_byId_zero_timeout_recorded_as_default :
    (Wait.byId envAllFail "submit" (some 0)).1 =
      Except.error ⟨idMsg "submit" 6000⟩ ∧
    idMsg "submit" 6000 ≠ idMsg "submit" 0 ∧
    (0 : Int) ≠ 6000 :=
  ⟨rfl, by decide, by decide⟩

/-- Claim C1, amended: for every locator kind, when the supplied
`maxTime` is nonzero it is the recorded timeout, and when omitted the
recorded timeout is 6000 (an explicit `0` also yields 6000, per the
counterexample); the call resolves when an element becomes locatable
within that effective timeout and otherwise rejects with a timeout error
whose message embeds the locator value and that timeout. -/
theorem wait_locator_timeout_contract (env : Env) (x : String) (t : Option Int)
    (hd : ∀ v, t = some v → v ≠ 0) :
    (t = none → jsOrDefault t 6000 = 6000) ∧
    (∀ v, t = some v → jsOrDefault t 6000 = v) ∧
    (env.locatedWithin ⟨LocKind.id, x⟩ (jsOrDefault t 6000) = true →
      (Wait.byId env x t).1 = Except.ok ()) ∧
    (env.locatedWithin ⟨LocKind.id, x⟩ (jsOrDefault t 6000) = false →
      (Wait.byId env x t).1 = Except.error ⟨idMsg x (jsOrDefault t 6000)⟩) ∧
    (env.locatedWithin ⟨LocKind.xpath, x⟩ (jsOrDefault t 6000) = true →
      (Wait.byXpath env x t).1 = Except.ok ()) ∧
    (env.locatedWithin ⟨LocKind.xpath, x⟩ (jsOrDefault t 6000) = false →
      (Wait.byXpath env x t).1 = Except.error ⟨xpathMsg x (jsOrDefault t 6000)⟩) ∧
    (env.locatedWithin ⟨LocKind.selector, x⟩ (jsOrDefault t 6000) = true →
      (Wait.bySelector env x t).1 = Except.ok ()) ∧
    (env.locatedWithin ⟨LocKind.selector, x⟩ (jsOrDefault t 6000) = false →
      (Wait.bySelector env x t).1 = Except.error ⟨selectorMsg x (jsOrDefault t 6000)⟩) := by
  refine ⟨?_, ?_, ?_, ?_, ?_, ?_, ?_, ?_⟩
  · intro h; subst h; rfl
  · intro v hv; subst hv; simp [jsOrDefault, hd v rfl]
  all_goals intro h
  all_goals simp [Wait.byId, Wait.byXpath, Wait.bySelector, h]

/-- Claim C1, witness: a nonzero timeout of 500 with the element never
locatable rejects citing exactly 500. -/
theorem wait_locator_timeout_contract_witness :
    (Wait.byId envAllFail "submit" (some 500)).1 =
      Except.error ⟨idMsg "submit" 500⟩ :=
  (wait_locator_timeout_contract envAllFail "submit" (some 500)
    (by intro v hv; cases hv; decide)).2.2.2.1 rfl

/-- Claim C3, counterexample: an explicitly supplied `maxTime = 0` is
not passed through to the driver — the driver receives 6000. -/
theorem wait_zero_maxTime_not_passed_through :
    (Wait.byId envAllFail "a" (some 0)).2.head? =
      some (Event.driverWait ⟨LocKind.id, "a"⟩ 6000) ∧
    (6000 : Int) ≠ 0 :=
  ⟨rfl, by decide⟩

/-- Claim C3, amended: a negative `maxTime` is passed to the driver
unchanged (no validation), but an explicit `0` is replaced by the
default 6000 because the default is applied via a falsiness check. -/
theorem wait_maxTime_passthrough_amended (env : Env) (x : String) (v : Int)
    (hneg : v < 0) :
    (Wait.byId env x (some v)).2.head? = some (Event.driverWait ⟨LocKind.id, x⟩ v) ∧
    (Wait.byXpath env x (some v)).2.head? = some (Event.driverWait ⟨LocKind.xpath, x⟩ v) ∧
    (Wait.bySelector env x (some v)).2.head? = some (Event.driverWait ⟨LocKind.selector, x⟩ v) ∧
    (Wait.byCondition env x (some v)).2.head? =
      some (Event.driverWaitCondition ("return " ++ x) v) ∧
    (Wait.byId env x (some 0)).2.head? = some (Event.driverWait ⟨LocKind.id, x⟩ 6000) ∧
    (Wait.byCondition env x (some 0)).2.head? =
      some (Event.driverWaitCondition ("return " ++ x) 6000) := by
  have hv : v ≠ 0 := by omega
  refine ⟨?_, ?_, ?_, ?_, ?_, ?_⟩
  · cases h : env.locatedWithin ⟨LocKind.id, x⟩ v <;>
      simp [Wait.byId, jsOrDefault, hv, h]
  · cases h : env.locatedWithin ⟨LocKind.xpath, x⟩ v <;>
      simp [Wait.byXpath, jsOrDefault, hv, h]
  · cases h : env.locatedWithin ⟨LocKind.selector, x⟩ v <;>
      simp [Wait.bySelector, jsOrDefault, hv, h]
  · cases h : env.condResult ("return " ++ x) v <;>
      simp [Wait.byCondition, jsOrDefault, hv, h]
  · cases h : env.locatedWithin ⟨LocKind.id, x⟩ 6000 <;>
      simp [Wait.byId, jsOrDefault, h]
  · cases h : env.condResult ("return " ++ x) 6000 <;>
      simp [Wait.byCondition, jsOrDefault, h]

/-- Claim C3, witness: `maxTime = -5` reaches the driver as `-5`. -/
theorem wait_maxTime_passthrough_amended_witness :
    (Wait.byId envAllFail "a" (some (-5))).2.head? =
      some (Event.driverWait ⟨LocKind.id, "a"⟩ (-5)) :=
  (wait_maxTime_passthrough_amended envAllFail "a" (-5) (by decide)).1

/-- Claim C2: with `{wait:true}`, `clickByXpath`/`clickBySelector`
perform find-element, click, and then the settle-wait, and the settled
outcome is the Completion Predicate's outcome; with `{wait:false}` or
omitted options the call resolves right after the click with no
settle-wait in the trace. -/
theorem click_wait_option_settle_semantics (env : Env) (pcc x s : String)
    (r : List (String × JsVal))
    (hfx : env.findElementOk ⟨LocKind.xpath, x⟩ = true)
    (hfs : env.findElementOk ⟨LocKind.selector, s⟩ = true)
    (hc : env.clickOk = true) :
    SingleClick.byXpath env pcc x (some ⟨some (JsVal.bool true), r⟩) =
      (env.extraWait pcc,
       [Event.findElement ⟨LocKind.xpath, x⟩, Event.clickPerform, Event.extraWait pcc]) ∧
    SingleClick.byXpath env pcc x (some ⟨some (JsVal.bool false), r⟩) =
      (Except.ok (), [Event.findElement ⟨LocKind.xpath, x⟩, Event.clickPerform]) ∧
    SingleClick.byXpath env pcc x none =
      (Except.ok (), [Event.findElement ⟨LocKind.xpath, x⟩, Event.clickPerform]) ∧
    SingleClick.bySelector env pcc s (some ⟨some (JsVal.bool true), r⟩) =
      (env.extraWait pcc,
       [Event.findElement ⟨LocKind.selector, s⟩, Event.clickPerform, Event.extraWait pcc]) ∧
    SingleClick.bySelector env pcc s (some ⟨some (JsVal.bool false), r⟩) =
      (Except.ok (), [Event.findElement ⟨LocKind.selector, s⟩, Event.clickPerform]) ∧
    SingleClick.bySelector env pcc s none =
      (Except.ok (), [Event.findElement ⟨LocKind.selector, s⟩, Event.clickPerform]) := by
  simp [SingleClick.byXpath, SingleClick.bySelector, waitRequested, hfx, hfs, hc]

/-- Claim C2, witness: a successful `{wait:true}` click performs find,
click, then the settle-wait. -/
theorem click_wait_option_settle_semantics_witness :
    SingleClick.byXpath envAllOk "pcc" "//a" (some ⟨some (JsVal.bool true), []⟩) =
      (envAllOk.extraWait "pcc",
       [Event.findElement ⟨LocKind.xpath, "//a"⟩, Event.clickPerform,
        Event.extraWait "pcc"]) :=
  (click_wait_option_settle_semantics envAllOk "pcc" "//a" ".b" [] rfl rfl rfl).1

/-- Claim C4: `byCondition` raises one and the same typed error —
carrying the expression text and the timeout used — whether the
condition stayed falsy until the timeout or the evaluation itself
raised; the two failure cases are indistinguishable in the result. -/
theorem byCondition_uniform_timeout_error (env : Env) (expr : String)
    (t : Option Int) (raw : JsError)
    (h : env.condResult ("return " ++ expr) (jsOrDefault t 6000) = CondResult.stuckFalsy ∨
         env.condResult ("return " ++ expr) (jsOrDefault t 6000) = CondResult.evalRaised raw) :
    (Wait.byCondition env expr t).1 =
      Except.error ⟨condMsg expr (jsOrDefault t 6000)⟩ := by
  rcases h with h | h <;> simp [Wait.byCondition, h]

/-- Claim C4, witness: a persistently falsy condition and a raising
condition produce the identical typed error. -/
theorem byCondition_uniform_timeout_error_witness :
    (Wait.byCondition envAllFail "x > 0" none).1 =
      Except.error ⟨condMsg "x > 0" 6000⟩ ∧
    (Wait.byCondition envCondRaises "x > 0" none).1 =
      Except.error ⟨condMsg "x > 0" 6000⟩ :=
  ⟨byCondition_uniform_timeout_error envAllFail "x > 0" none ⟨"boom"⟩ (Or.inl rfl),
   byCondition_uniform_timeout_error envCondRaises "x > 0" none ⟨"boom"⟩ (Or.inr rfl)⟩

/-- Claim C5: `clickBySelector(s, {wait:true})` with no element matching
`s` rejects with the action-failure error citing the selector kind and
value, and the settle-wait is never invoked. -/
theorem clickBySelector_missing_element_failure (env : Env) (pcc s : String)
    (r : List (String × JsVal))
    (hf : env.findElementOk ⟨LocKind.selector, s⟩ = false) :
    (SingleClick.bySelector env pcc s (some ⟨some (JsVal.bool true), r⟩)).1 =
      Except.error ⟨clickSelectorMsg s⟩ ∧
    invokesSettleWait
      (SingleClick.bySelector env pcc s (some ⟨some (JsVal.bool true), r⟩)).2 = false := by
  simp [SingleClick.bySelector, hf, invokesSettleWait]

/-- Claim C5, witness: clicking `.missing` with `{wait:true}` in an
environment with no matching element. -/
theorem clickBySelector_missing_element_failure_witness :
    (SingleClick.bySelector envAllFail "pcc" ".missing"
       (some ⟨some (JsVal.bool true), []⟩)).1 =
      Except.error ⟨clickSelectorMsg ".missing"⟩ :=
  (clickBySelector_missing_element_failure envAllFail "pcc" ".missing" [] rfl).1

/-- Claim C6, counterexample: `byPageToComplete` is a WaitEngine
operation whose failure path emits zero diagnostic records and re-raises
the raw Completion Predicate error rather than a fresh typed one. -/
theorem byPageToComplete_failure_emits_no_diagnostics :
    (Wait.byPageToComplete envAllFail "pcc").1 = Except.error ⟨"raw failure"⟩ ∧
    countErrorLogs (Wait.byPageToComplete envAllFail "pcc").2 = 0 ∧
    countVerboseLogs (Wait.byPageToComplete envAllFail "pcc").2 = 0 := by
  decide

/-- Claim C6, amended: every failure path guarded by an operation's
`try`/`catch` — the element waits `byId`/`byXpath`/`bySelector`,
`byCondition`, and the find-element/click-dispatch phase of each click
operation — emits exactly two diagnostic records (one error-severity
summary, one verbose raw cause) before a fresh typed error is raised;
but `byPageToComplete` (and the post-click settle-wait) emits no
diagnostics, propagating a Completion Predicate failure raw. -/
theorem failure_diagnostics_amended (env : Env) (pcc x expr s : String)
    (t : Option Int) (opts : Option OptionsBag) :
    (env.locatedWithin ⟨LocKind.id, x⟩ (jsOrDefault t 6000) = false →
      countErrorLogs (Wait.byId env x t).2 = 1 ∧
      countVerboseLogs (Wait.byId env x t).2 = 1 ∧
      (Wait.byId env x t).1 = Except.error ⟨idMsg x (jsOrDefault t 6000)⟩) ∧
    (env.locatedWithin ⟨LocKind.xpath, x⟩ (jsOrDefault t 6000) = false →
      countErrorLogs (Wait.byXpath env x t).2 = 1 ∧
      countVerboseLogs (Wait.byXpath env x t).2 = 1 ∧
      (Wait.byXpath env x t).1 = Except.error ⟨xpathMsg x (jsOrDefault t 6000)⟩) ∧
    (env.locatedWithin ⟨LocKind.selector, x⟩ (jsOrDefault t 6000) = false →
      countErrorLogs (Wait.bySelector env x t).2 = 1 ∧
      countVerboseLogs (Wait.bySelector env x t).2 = 1 ∧
      (Wait.bySelector env x t).1 = Except.error ⟨selectorMsg x (jsOrDefault t 6000)⟩) ∧
    (∀ res, env.condResult ("return " ++ expr) (jsOrDefault t 6000) = res →
      res ≠ CondResult.truthy →
      countErrorLogs (Wait.byCondition env expr t).2 = 1 ∧
      countVerboseLogs (Wait.byCondition env expr t).2 = 1 ∧
      (Wait.byCondition env expr t).1 =
        Except.error ⟨condMsg expr (jsOrDefault t 6000)⟩) ∧
    (env.findElementOk ⟨LocKind.xpath, x⟩ = false →
      countErrorLogs (SingleClick.byXpath env pcc x opts).2 = 1 ∧
      countVerboseLogs (SingleClick.byXpath env pcc x opts).2 = 1 ∧
      (SingleClick.byXpath env pcc x opts).1 = Except.error ⟨clickXpathMsg x⟩) ∧
    (env.findElementOk ⟨LocKind.xpath, x⟩ = true → env.clickOk = false →
      countErrorLogs (SingleClick.byXpath env pcc x opts).2 = 1 ∧
      countVerboseLogs (SingleClick.byXpath env pcc x opts).2 = 1 ∧
      (SingleClick.byXpath env pcc x opts).1 = Except.error ⟨clickXpathMsg x⟩) ∧
    (env.findElementOk ⟨LocKind.selector, s⟩ = false →
      countErrorLogs (SingleClick.bySelector env pcc s opts).2 = 1 ∧
      countVerboseLogs (SingleClick.bySelector env pcc s opts).2 = 1 ∧
      (SingleClick.bySelector env pcc s opts).1 = Except.error ⟨clickSelectorMsg s⟩) ∧
    (env.clickOk = false →
      countErrorLogs (SingleClick.atCursor env pcc opts).2 = 1 ∧
      countVerboseLogs (SingleClick.atCursor env pcc opts).2 = 1 ∧
      (SingleClick.atCursor env pcc opts).1 = Except.error ⟨clickCursorMsg⟩) ∧
    (countErrorLogs (Wait.byPageToComplete env pcc).2 = 0 ∧
     countVerboseLogs (Wait.byPageToComplete env pcc).2 = 0) ∧
    (env.findElementOk ⟨LocKind.xpath, x⟩ = true → env.clickOk = true →
      countErrorLogs (SingleClick.byXpath env pcc x opts).2 = 0 ∧
      countVerboseLogs (SingleClick.byXpath env pcc x opts).2 = 0) := by
  refine ⟨?_, ?_, ?_, ?_, ?_, ?_, ?_, ?_, ?_, ?_⟩
  · intro h
    simp [Wait.byId, h, countErrorLogs, countVerboseLogs]
  · intro h
    simp [Wait.byXpath, h, countErrorLogs, countVerboseLogs]
  · intro h
    simp [Wait.bySelector, h, countErrorLogs, countVerboseLogs]
  · intro res hres hne
    cases res with
    | truthy => exact absurd rfl hne
    | stuckFalsy => simp [Wait.byCondition, hres, countErrorLogs, countVerboseLogs]
    | evalRaised raw => simp [Wait.byCondition, hres, countErrorLogs, countVerboseLogs]
  · intro h
    simp [SingleClick.byXpath, h, countErrorLogs, countVerboseLogs]
  · intro h1 h2
    simp [SingleClick.byXpath, h1, h2, countErrorLogs, countVerboseLogs]
  · intro h
    simp [SingleClick.bySelector, h, countErrorLogs, countVerboseLogs]
  · intro h
    simp [SingleClick.atCursor, h, countErrorLogs, countVerboseLogs]
  · exact ⟨rfl, rfl⟩
  · intro h1 h2
    cases hw : waitRequested opts <;>
      simp [SingleClick.byXpath, h1, h2, hw, countErrorLogs, countVerboseLogs]

/-- Claim C6, witness: a failed `byId` wait logs exactly one error-level
and one verbose record and raises the typed error. -/
theorem failure_diagnostics_amended_witness :
    countErrorLogs (Wait.byId envAllFail "submit" none).2 = 1 ∧
    countVerboseLogs (Wait.byId envAllFail "submit" none).2 = 1 ∧
    (Wait.byId envAllFail "submit" none).1 = Except.error ⟨idMsg "submit" 6000⟩ :=
  (failure_diagnostics_amended envAllFail "pcc" "submit" "x" ".a" none none).1 rfl

/-- Claim C7: the settle-wait guard holds exactly when options are
present with key `wait` strictly equal to the boolean `true`; truthy
non-boolean values (a number, a string) do not trigger it; whenever the
guard is off, every click operation behaves identically to a call with
no options, regardless of any other keys. -/
theorem options_wait_strict_true_recognition (env : Env) (pcc x s : String)
    (opts : Option OptionsBag) :
    (waitRequested opts = true ↔ ∃ r, opts = some ⟨some (JsVal.bool true), r⟩) ∧
    waitRequested (some ⟨some (JsVal.num 1), []⟩) = false ∧
    waitRequested (some ⟨some (JsVal.str "true"), []⟩) = false ∧
    (env.findElementOk ⟨LocKind.xpath, x⟩ = true → env.clickOk = true →
      invokesSettleWait (SingleClick.byXpath env pcc x opts).2 = waitRequested opts) ∧
    (env.findElementOk ⟨LocKind.selector, s⟩ = true → env.clickOk = true →
      invokesSettleWait (SingleClick.bySelector env pcc s opts).2 = waitRequested opts) ∧
    (env.clickOk = true →
      invokesSettleWait (SingleClick.atCursor env pcc opts).2 = waitRequested opts) ∧
    (waitRequested opts = false →
      SingleClick.byXpath env pcc x opts = SingleClick.byXpath env pcc x none ∧
      SingleClick.bySelector env pcc s opts = SingleClick.bySelector env pcc s none ∧
      SingleClick.atCursor env pcc opts = SingleClick.atCursor env pcc none) := by
  refine ⟨?_, rfl, rfl, ?_, ?_, ?_, ?_⟩
  · constructor
    · intro h
      match opts with
      | none => simp [waitRequested] at h
      | some ⟨none, r⟩ => simp [waitRequested] at h
      | some ⟨some (JsVal.bool true), r⟩ => exact ⟨r, rfl⟩
      | some ⟨some (JsVal.bool false), r⟩ => simp [waitRequested] at h
      | some ⟨some (JsVal.num n), r⟩ => simp [waitRequested] at h
      | some ⟨some (JsVal.str v), r⟩ => simp [waitRequested] at h
      | some ⟨some JsVal.nullV, r⟩ => simp [waitRequested] at h
      | some ⟨some JsVal.undef, r⟩ => simp [waitRequested] at h
    · rintro ⟨r, rfl⟩; rfl
  · intro h1 h2
    cases hw : waitRequested opts <;>
      simp [SingleClick.byXpath, h1, h2, hw, invokesSettleWait]
  · intro h1 h2
    cases hw : waitRequested opts <;>
      simp [SingleClick.bySelector, h1, h2, hw, invokesSettleWait]
  · intro h
    cases hw : waitRequested opts <;>
      simp [SingleClick.atCursor, h, hw, invokesSettleWait]
  · intro h
    have hn : waitRequested none = false := rfl
    refine ⟨?_, ?_, ?_⟩ <;>
      simp [SingleClick.byXpath, SingleClick.bySelector, SingleClick.atCursor, h, hn]

/-- Claim C7, witness: with no options, a successful `atCursor` click
performs no settle-wait. -/
theorem options_wait_strict_true_recognition_witness :
    invokesSettleWait (SingleClick.atCursor envAllOk "pcc" none).2 =
      waitRequested none :=
  (options_wait_strict_true_recognition envAllOk "pcc" "//a" ".b" none).2.2.2.2.2.1 rfl

/-- Claim C8: `byTime(ms)` always resolves successfully for every
argument, passing `ms` to the delay primitive unvalidated; an elapsed
duration is never reported as an error. -/
theorem byTime_never_raises (ms : Int) :
    Wait.byTime ms = (Except.ok (), [Event.delay ms]) :=
  rfl

/-- Claim C9: `byPageToComplete()` is exactly the Completion Predicate
wait: its outcome is the outcome of `extraWait(pageCompleteCheck)`, its
trace is that single delegation (no driver wait, no delay, hence no
timeout of its own), and it resolves precisely when the predicate
resolves. -/
theorem byPageToComplete_delegates_to_completion_predicate (env : Env)
    (pcc : String) :
    Wait.byPageToComplete env pcc = (env.extraWait pcc, [Event.extraWait pcc]) ∧
    ((Wait.byPageToComplete env pcc).1 = Except.ok () ↔
      env.extraWait pcc = Except.ok ()) :=
  ⟨rfl, Iff.rfl⟩

/-- Claim C10: when the click succeeds under `{wait:true}` but the
settle-wait rejects, the rejection propagates to the caller unchanged —
it is not caught, not logged, and not translated into the typed
action-failure error. -/
theorem settle_wait_rejection_propagates_raw (env : Env) (pcc x s : String)
    (r : List (String × JsVal)) (e : JsError)
    (hfx : env.findElementOk ⟨LocKind.xpath, x⟩ = true)
    (hfs : env.findElementOk ⟨LocKind.selector, s⟩ = true)
    (hc : env.clickOk = true)
    (he : env.extraWait pcc = Except.error e) :
    (SingleClick.byXpath env pcc x (some ⟨some (JsVal.bool true), r⟩)).1 =
      Except.error e ∧
    countErrorLogs
      (SingleClick.byXpath env pcc x (some ⟨some (JsVal.bool true), r⟩)).2 = 0 ∧
    countVerboseLogs
      (SingleClick.byXpath env pcc x (some ⟨some (JsVal.bool true), r⟩)).2 = 0 ∧
    (SingleClick.bySelector env pcc s (some ⟨some (JsVal.bool true), r⟩)).1 =
      Except.error e ∧
    countErrorLogs
      (SingleClick.bySelector env pcc s (some ⟨some (JsVal.bool true), r⟩)).2 = 0 ∧
    countVerboseLogs
      (SingleClick.bySelector env pcc s (some ⟨some (JsVal.bool true), r⟩)).2 = 0 := by
  simp [SingleClick.byXpath, SingleClick.bySelector, waitRequested, hfx, hfs, hc, he,
    countErrorLogs, countVerboseLogs]

/-- Claim C10, witness: a rejecting settle-wait after a successful
xpath click surfaces the raw rejection itself. -/
theorem settle_wait_rejection_propagates_raw_witness :
    (SingleClick.byXpath envSettleFails "pcc" "//a"
       (some ⟨some (JsVal.bool true), []⟩)).1 =
      Except.error ⟨"settle rejected"⟩ :=
  (settle_wait_rejection_propagates_raw envSettleFails "pcc" "//a" ".b" []
    ⟨"settle rejected"⟩ rfl rfl rfl rfl).1
